import Mathlib

/-!
Verification of emulators-ui (rendering backends and layers controls).

Shallow embedding of:
  * src/src/graphics/_2d.ts        (the 2D canvas rendering backend)
  * src/unnamed/part_000           (the WebGL rendering backend, webGl)
  * src/src/controls/layers-control.ts (control factories and layer dispatch)

JavaScript numbers are modelled as rationals (ℚ) where the code divides,
and as integers (Int/Nat) for key codes, buttons and array indices.
Buffers are modelled as total functions Nat → Nat (a JS typed array read);
DOM structures are modelled as explicit records and listener lists.
-/

namespace EmulatorsUi

/-- The canvas placement computed by a backend's onResize: style width,
height, top and left, in CSS pixels. -/
structure Placement where
  width : ℚ
  height : ℚ
  top : ℚ
  left : ℚ
deriving DecidableEq

/-- The onResize procedure of the 2D backend, src/src/graphics/_2d.ts lines
16-32: letterbox the frame inside the container, keeping the frame aspect,
and center it via the top/left offsets. -/
def onResize2d (containerWidth containerHeight frameWidth frameHeight : ℚ) :
    Placement :=
  let aspect := frameWidth / frameHeight
  let width := containerWidth
  let height := containerWidth / aspect
  let wh := if height > containerHeight
    then (containerHeight * aspect, containerHeight)
    else (width, height)
  { width := wh.1
    height := wh.2
    top := (containerHeight - wh.2) / 2
    left := (containerWidth - wh.1) / 2 }

/-- The onResize procedure of the WebGL backend, src/unnamed/part_000 lines
62-78; transcribed separately from its own source file. -/
def onResizeWebGl (containerWidth containerHeight frameWidth frameHeight : ℚ) :
    Placement :=
  let aspect := frameWidth / frameHeight
  let width := containerWidth
  let height := containerWidth / aspect
  let wh := if height > containerHeight
    then (containerHeight * aspect, containerHeight)
    else (width, height)
  { width := wh.1
    height := wh.2
    top := (containerHeight - wh.2) / 2
    left := (containerWidth - wh.1) / 2 }

/-- The RGBA buffer built by the onFrame handler of the 2D backend
(src/src/graphics/_2d.ts lines 52-60): the while loop runs once per pixel
(rgba.length = frameWidth*frameHeight*4, four writes per iteration), copying
three bytes from the rgb buffer and appending alpha 255. `n` is the number
of remaining pixels, `rgbOffset` the current read position. -/
def rgbaPixels (rgb : Nat → Nat) : Nat → Nat → List Nat
  | 0, _ => []
  | Nat.succ n, rgbOffset =>
      rgb rgbOffset :: rgb (rgbOffset + 1) :: rgb (rgbOffset + 2) :: 255 ::
        rgbaPixels rgb n (rgbOffset + 3)

/-- A putImageData call: the pixel data, the ImageData dimensions and the
destination position dx, dy on the canvas. -/
structure DrawCommand where
  data : List Nat
  imageWidth : Nat
  imageHeight : Nat
  dx : Int
  dy : Int
deriving DecidableEq

/-- The onFrame handler of the 2D backend (src/src/graphics/_2d.ts lines
51-63): convert the incoming rgb buffer to rgba and issue
putImageData(new ImageData(rgba, frameWidth, frameHeight), 0, 0). -/
def onFrame2d (rgb : Nat → Nat) (frameWidth frameHeight : Nat) : DrawCommand :=
  { data := rgbaPixels rgb (frameWidth * frameHeight) 0
    imageWidth := frameWidth
    imageHeight := frameHeight
    dx := 0
    dy := 0 }

/-- Whether `needle` occurs at the start of `hay` (helper for the JS
String.indexOf model). -/
def leadsWith : List Char → List Char → Bool
  | [], _ => true
  | _ :: _, [] => false
  | a :: as, b :: bs => a == b && leadsWith as bs

/-- Position of the first occurrence of `needle` in `hay`, if any. -/
def firstHit (needle : List Char) : List Char → Option Nat
  | [] => if needle.isEmpty then some 0 else none
  | c :: rest =>
      if leadsWith needle (c :: rest) then some 0
      else (firstHit needle rest).map (· + 1)

/-- JS String.prototype.indexOf on strings as Char lists: the index of the
first occurrence of `needle` in `hay`, and -1 when there is none. -/
def jsIndexOf (hay needle : List Char) : Int :=
  match firstHit needle hay with
  | some i => (i : Int)
  | none => -1

/-- The actions a control handler can trigger: calls into the emulator
command interface (sendKeyEvent, sendMouseMotion), mutations of the layers
object (pointerButton assignment, keyboard toggle), and the Switch
control's dosInstance.setLayersConfig call. -/
inductive Action where
  | sendKeyEvent (keyCode : Int) (pressed : Bool)
  | sendMouseMotion (x y : ℚ)
  | setPointerButton (button : Int)
  | toggleKeyboard
  | setLayersConfig (layerName : List Char)
deriving DecidableEq

/-- A grid cell center, as produced by the grid layout
(src/src/controls/grid.ts, outside src/; used here only as input data). -/
structure Cell where
  centerX : ℚ
  centerY : ℚ

/-- A grid configuration as consumed by the control factories: cell centers
indexed by row and column, the column width, row height and total width.
Cell access cells[row][column] is modelled as a total function (the claims
do not concern out-of-range rows or columns). -/
structure GridConfiguration where
  cells : Nat → Nat → Cell
  columnWidth : ℚ
  rowHeight : ℚ
  width : ℚ

/-- A control record from layerConfig.controls. The JS records are
heterogeneous (each factory reads the fields of its own control kind); they
are merged into one record with every field the factories read. -/
structure LayerControlC where
  type : List Char
  row : Nat
  column : Nat
  symbol : List Char
  mapTo : Int
  layerName : List Char
  direction : List Char
  button : Int
deriving DecidableEq

/-- What a control factory builds: the button's onDown/onUp handlers as the
action lists they trigger, and the absolute position and width given to the
button. createButton itself (src/src/controls/button.ts, outside src/) is
modelled as packaging its handler argument unchanged into the button. -/
structure ControlBinding where
  onDown : List Action
  onUp : List Action
  left : ℚ
  top : ℚ
  buttonWidth : ℚ
deriving DecidableEq

/-- createKeyControl, src/src/controls/layers-control.ts lines 86-106. -/
def createKeyControl (keyControl : LayerControlC) (gridConfig : GridConfiguration) :
    ControlBinding :=
  let cell := gridConfig.cells keyControl.row keyControl.column
  { onDown := [Action.sendKeyEvent keyControl.mapTo true]
    onUp := [Action.sendKeyEvent keyControl.mapTo false]
    left := cell.centerX - gridConfig.columnWidth / 2
    top := cell.centerY - gridConfig.rowHeight / 2
    buttonWidth := gridConfig.columnWidth }

/-- createOptionsControl, lines 108-125. The options() helper
(src/src/controls/options.ts, outside src/) installs its own DOM, so the
handlers are empty here; the computed top/left anchors are kept. -/
def createOptionsControl (keyControl : LayerControlC) (gridConfig : GridConfiguration) :
    ControlBinding :=
  let cell := gridConfig.cells keyControl.row keyControl.column
  { onDown := []
    onUp := []
    left := cell.centerX - gridConfig.columnWidth / 2
    top := cell.centerY - gridConfig.rowHeight / 2
    buttonWidth := gridConfig.columnWidth }

/-- createKeyboardControl, lines 127-158: the button's onUp toggles the
keyboard; it has no onDown handler. -/
def createKeyboardControl (keyboardControl : LayerControlC) (gridConfig : GridConfiguration) :
    ControlBinding :=
  let cell := gridConfig.cells keyboardControl.row keyboardControl.column
  { onDown := []
    onUp := [Action.toggleKeyboard]
    left := cell.centerX - gridConfig.columnWidth / 2
    top := cell.centerY - gridConfig.rowHeight / 2
    buttonWidth := gridConfig.columnWidth }

/-- createSwitchControl, lines 160-181: onUp switches the layers config to
the control's layerName. -/
def createSwitchControl (switchControl : LayerControlC) (gridConfig : GridConfiguration) :
    ControlBinding :=
  let cell := gridConfig.cells switchControl.row switchControl.column
  { onDown := []
    onUp := [Action.setLayersConfig switchControl.layerName]
    left := cell.centerX - gridConfig.columnWidth / 2
    top := cell.centerY - gridConfig.rowHeight / 2
    buttonWidth := gridConfig.columnWidth }

/-- createScreenMoveControl, lines 183-228: mX/mY start at 0.5 and are
overwritten by the four indexOf tests in source order (up, down, left,
right); onDown sends sendMouseMotion(mX, mY), onUp sends
sendMouseMotion(0.5, 0.5). -/
def createScreenMoveControl (screenMoveControl : LayerControlC) (gridConfig : GridConfiguration) :
    ControlBinding :=
  let cell := gridConfig.cells screenMoveControl.row screenMoveControl.column
  let mX : ℚ := (1 : ℚ) / 2
  let mY : ℚ := (1 : ℚ) / 2
  let mY := if 0 ≤ jsIndexOf screenMoveControl.direction ("up".data) then 0 else mY
  let mY := if 0 ≤ jsIndexOf screenMoveControl.direction ("down".data) then 1 else mY
  let mX := if 0 ≤ jsIndexOf screenMoveControl.direction ("left".data) then 0 else mX
  let mX := if 0 ≤ jsIndexOf screenMoveControl.direction ("right".data) then 1 else mX
  { onDown := [Action.sendMouseMotion mX mY]
    onUp := [Action.sendMouseMotion ((1 : ℚ) / 2) ((1 : ℚ) / 2)]
    left := cell.centerX - gridConfig.columnWidth / 2
    top := cell.centerY - gridConfig.rowHeight / 2
    buttonWidth := gridConfig.columnWidth }

/-- createPointerButtonControl, lines 230-256: onDown assigns the control's
button value to layers.pointerButton, onUp assigns 0. -/
def createPointerButtonControl (pointerButtonControl : LayerControlC) (gridConfig : GridConfiguration) :
    ControlBinding :=
  let cell := gridConfig.cells pointerButtonControl.row pointerButtonControl.column
  { onDown := [Action.setPointerButton pointerButtonControl.button]
    onUp := [Action.setPointerButton 0]
    left := cell.centerX - gridConfig.columnWidth / 2
    top := cell.centerY - gridConfig.rowHeight / 2
    buttonWidth := gridConfig.columnWidth }

/-- factoryMapping, lines 35-42: the dispatch table from a control's type
string to its factory; a JS property lookup on the object literal, so it is
some factory on exactly the six declared keys and undefined (none)
elsewhere. -/
def factoryMapping (t : List Char) :
    Option (LayerControlC → GridConfiguration → ControlBinding) :=
  if t = "Key".data then some createKeyControl
  else if t = "Options".data then some createOptionsControl
  else if t = "Keyboard".data then some createKeyboardControl
  else if t = "Switch".data then some createSwitchControl
  else if t = "ScreenMove".data then some createScreenMoveControl
  else if t = "PointerButton".data then some createPointerButtonControl
  else none

/-- An observable step of initLayerConfig's onResize loop: invoking a
previously registered unbind (identified by the control it bound), creating
a control (the factory call succeeded and its unbind was pushed), or the
console.error for an unknown control type. -/
inductive Step where
  | invokeUnbind (c : LayerControlC)
  | created (c : LayerControlC) (b : ControlBinding)
  | logError (t : List Char)
deriving DecidableEq

/-- The control-creation loop of onResize, lines 61-70: for each control in
order, look up its factory; when undefined, log an error and continue;
otherwise run the factory and push the unbind. Returns the unbindControls
list (each unbind identified by its control and binding) and the step
trace. -/
def bindControls (gridConfig : GridConfiguration) :
    List LayerControlC → List (LayerControlC × ControlBinding) × List Step
  | [] => ([], [])
  | c :: rest =>
    let r := bindControls gridConfig rest
    match factoryMapping c.type with
    | none => (r.1, Step.logError c.type :: r.2)
    | some f => ((c, f c gridConfig) :: r.1, Step.created c (f c gridConfig) :: r.2)

/-- onResize of initLayerConfig, lines 53-71: invoke every previously
registered unbind and empty the list (the splice), then rebuild the
controls from the current grid configuration. Returns the new
unbindControls list and the full step trace of the resize. -/
def onResizeControls (prev : List (LayerControlC × ControlBinding))
    (gridConfig : GridConfiguration) (controls : List LayerControlC) :
    List (LayerControlC × ControlBinding) × List Step :=
  let clearing := prev.map (fun p => Step.invokeUnbind p.1)
  let r := bindControls gridConfig controls
  (r.1, clearing ++ r.2)

/-- The mutable state of the Layers object that the control handlers can
touch: the pointerButton field, the keyboard visibility, the resize
listener list and the container dimensions. -/
structure LayersState where
  pointerButton : Int
  keyboardVisible : Bool
  resizeListeners : List Nat
  width : ℚ
  height : ℚ
deriving DecidableEq

/-- Interpretation of one handler action on the layers state: the
pointerButton assignment and the keyboard toggle mutate layers; calls into
the command interface or dosInstance leave layers unchanged. -/
def applyAction (s : LayersState) : Action → LayersState
  | Action.setPointerButton b => { s with pointerButton := b }
  | Action.toggleKeyboard => { s with keyboardVisible := !s.keyboardVisible }
  | Action.sendKeyEvent _ _ => s
  | Action.sendMouseMotion _ _ => s
  | Action.setLayersConfig _ => s

/-- Run a handler's action list on the layers state. -/
def applyActions (s : LayersState) (as : List Action) : LayersState :=
  as.foldl applyAction s

/-- A layer entry of layersConfig.layers: its title and controls (the grid
name is kept as data; the grid module is outside src/). -/
structure LayerConf where
  title : List Char
  gridName : List Char
  controls : List LayerControlC
deriving DecidableEq

/-- The layer-selection logic of initLayersControl, lines 17-25:
selectedLayer starts as layers[0] (undefined, i.e. none, on an empty list);
when layerName is given, the loop replaces it with the first layer whose
title equals layerName and breaks; with no match the initial value stays. -/
def selectLayer (layersList : List LayerConf) (layerName : Option (List Char)) :
    Option LayerConf :=
  let selected := layersList.get? 0
  match layerName with
  | none => selected
  | some nm =>
    match layersList.find? (fun l => l.title == nm) with
    | some l => some l
    | none => selected

/-- The command-interface event streams a backend can subscribe to. -/
inductive CISubscription where
  | onFrameSize
  | onFrame
  | onExit
deriving DecidableEq

/-- Modelled from the spec: Layers.addOnResize (src/dom/layers.ts is not
under src/) registers a resize listener with the layers object; modelled
as appending the listener (identified by a Nat) to the listener list. -/
def addOnResize (listeners : List Nat) (handler : Nat) : List Nat :=
  listeners ++ [handler]

/-- Modelled from the spec: Layers.removeOnResize (src/dom/layers.ts is not
under src/) removes a registered resize listener; modelled as removing the
first occurrence from the listener list. -/
def removeOnResize (listeners : List Nat) (handler : Nat) : List Nat :=
  listeners.erase handler

/-- The externally observable wiring of a rendering backend: which
command-interface events it subscribed to (in subscription order), the
layers resize-listener list right after initialization, and the listener
list after the onExit handler has run. -/
structure BackendInit where
  ciSubscriptions : List CISubscription
  listenersAfterInit : List Nat
  listenersAfterExit : List Nat
deriving DecidableEq

/-- The wiring of the 2D backend, src/src/graphics/_2d.ts: it registers
onResizeLayer with layers (line 39), subscribes to onFrameSize (50),
onFrame (51) and onExit (67), and the onExit handler removes onResizeLayer
from layers (68). -/
def init2d (listeners : List Nat) (onResizeLayer : Nat) : BackendInit :=
  let afterInit := addOnResize listeners onResizeLayer
  { ciSubscriptions :=
      [CISubscription.onFrameSize, CISubscription.onFrame, CISubscription.onExit]
    listenersAfterInit := afterInit
    listenersAfterExit := removeOnResize afterInit onResizeLayer }

/-- The wiring of the WebGL backend, src/unnamed/part_000: addOnResize
(line 85), onFrameSize (95), onFrame (96), onExit (105), whose handler
removes onResizeLayer (106); transcribed separately from its own source. -/
def initWebGl (listeners : List Nat) (onResizeLayer : Nat) : BackendInit :=
  let afterInit := addOnResize listeners onResizeLayer
  { ciSubscriptions :=
      [CISubscription.onFrameSize, CISubscription.onFrame, CISubscription.onExit]
    listenersAfterInit := afterInit
    listenersAfterExit := removeOnResize afterInit onResizeLayer }

/-- A concrete grid configuration for witness instantiations. -/
def gEx : GridConfiguration :=
  { cells := fun r c => { centerX := (10 : ℚ) * c + 5, centerY := (10 : ℚ) * r + 5 }
    columnWidth := 10
    rowHeight := 10
    width := 40 }

/-- A concrete Key control for witness instantiations. -/
def keyCtrlEx : LayerControlC :=
  { type := "Key".data, row := 0, column := 0, symbol := "A".data
    mapTo := 30, layerName := [], direction := [], button := 0 }

/-- A concrete control with an unknown type for witness instantiations. -/
def badCtrlEx : LayerControlC :=
  { type := "Nope".data, row := 0, column := 1, symbol := "B".data
    mapTo := 0, layerName := [], direction := [], button := 0 }

/-- A concrete PointerButton control for witness instantiations. -/
def ptrCtrlEx : LayerControlC :=
  { type := "PointerButton".data, row := 1, column := 0, symbol := "C".data
    mapTo := 0, layerName := [], direction := [], button := 2 }

/-- A concrete layer whose title is "main". -/
def mainLayerEx : LayerConf :=
  { title := "main".data, gridName := "honeycomb".data, controls := [keyCtrlEx] }

/-- A concrete layer whose title is "alt" and which holds one control. -/
def altLayerEx : LayerConf :=
  { title := "alt".data, gridName := "honeycomb".data, controls := [ptrCtrlEx] }

/-- A second concrete layer titled "alt", distinguishable from the first by
its empty control list. -/
def altLayerEx2 : LayerConf :=
  { title := "alt".data, gridName := "honeycomb".data, controls := [] }

/-- A concrete layer list for the layer-selection witness; the two layers
titled "alt" differ, so the selection shows which one the loop picks. -/
def layersEx : List LayerConf := [mainLayerEx, altLayerEx, altLayerEx2]

/-- A concrete previously bound control list for the resize witness. -/
def prevEx : List (LayerControlC × ControlBinding) :=
  [(keyCtrlEx, createKeyControl keyCtrlEx gEx)]

/-- A concrete rgb frame buffer for the conversion witness. -/
def rgbEx : Nat → Nat := fun k => k + 10

theorem get?_cons4 {α : Type} (a b c d : α) (l : List α) (k : Nat) :
    (a :: b :: c :: d :: l).get? (k + 4) = l.get? k := rfl

theorem rgbaPixels_get (rgb : Nat → Nat) :
    ∀ (n off i : Nat), i < n →
      (rgbaPixels rgb n off).get? (4 * i) = some (rgb (off + 3 * i)) ∧
      (rgbaPixels rgb n off).get? (4 * i + 1) = some (rgb (off + 3 * i + 1)) ∧
      (rgbaPixels rgb n off).get? (4 * i + 2) = some (rgb (off + 3 * i + 2)) ∧
      (rgbaPixels rgb n off).get? (4 * i + 3) = some 255 := by
  intro n
  induction n with
  | zero => intro off i h; exact absurd h (Nat.not_lt_zero i)
  | succ n ih =>
    intro off i h
    cases i with
    | zero => exact ⟨rfl, rfl, rfl, rfl⟩
    | succ j =>
      have hj : j < n := Nat.lt_of_succ_lt_succ h
      obtain ⟨e0, e1, e2, e3⟩ := ih (off + 3) j hj
      have h0 : 4 * (j + 1) = 4 * j + 4 := by ring
      have h1 : 4 * (j + 1) + 1 = (4 * j + 1) + 4 := by ring
      have h2 : 4 * (j + 1) + 2 = (4 * j + 2) + 4 := by ring
      have h3 : 4 * (j + 1) + 3 = (4 * j + 3) + 4 := by ring
      have v0 : off + 3 + 3 * j = off + 3 * (j + 1) := by ring
      have v1 : off + 3 + 3 * j + 1 = off + 3 * (j + 1) + 1 := by ring
      have v2 : off + 3 + 3 * j + 2 = off + 3 * (j + 1) + 2 := by ring
      refine ⟨?_, ?_, ?_, ?_⟩
      · rw [show rgbaPixels rgb (n + 1) off = rgb off :: rgb (off + 1) ::
          rgb (off + 2) :: 255 :: rgbaPixels rgb n (off + 3) from rfl,
          h0, get?_cons4, e0, v0]
      · rw [show rgbaPixels rgb (n + 1) off = rgb off :: rgb (off + 1) ::
          rgb (off + 2) :: 255 :: rgbaPixels rgb n (off + 3) from rfl,
          h1, get?_cons4, e1, v1]
      · rw [show rgbaPixels rgb (n + 1) off = rgb off :: rgb (off + 1) ::
          rgb (off + 2) :: 255 :: rgbaPixels rgb n (off + 3) from rfl,
          h2, get?_cons4, e2, v2]
      · rw [show rgbaPixels rgb (n + 1) off = rgb off :: rgb (off + 1) ::
          rgb (off + 2) :: 255 :: rgbaPixels rgb n (off + 3) from rfl,
          h3, get?_cons4, e3]

/-- Claim C1: for every Key control created by createKeyControl, a press
(onDown) sends exactly one key event sendKeyEvent(mapTo, true) and a
release (onUp) sends exactly one key event sendKeyEvent(mapTo, false), the
key code taken unchanged from the control's mapTo field. -/
theorem c1_key_control_events (c : LayerControlC) (gridConfig : GridConfiguration) :
    (createKeyControl c gridConfig).onDown = [Action.sendKeyEvent c.mapTo true] ∧
    (createKeyControl c gridConfig).onUp = [Action.sendKeyEvent c.mapTo false] :=
  ⟨rfl, rfl⟩

/-- Claim C2: the 2D canvas backend and the WebGL backend compute identical
canvas placement: for every container size and frame size, the two onResize
procedures produce the same displayed width, height, top and left. -/
theorem c2_backends_same_placement
    (containerWidth containerHeight frameWidth frameHeight : ℚ) :
    onResize2d containerWidth containerHeight frameWidth frameHeight =
      onResizeWebGl containerWidth containerHeight frameWidth frameHeight := rfl

/-- Claim C3: on every frame event the 2D backend converts the incoming RGB
buffer to RGBA with rgba[4i] = rgb[3i], rgba[4i+1] = rgb[3i+1],
rgba[4i+2] = rgb[3i+2], rgba[4i+3] = 255 for every pixel index
i < frameWidth*frameHeight, and draws the image at position (0, 0). -/
theorem c3_rgb_to_rgba (rgb : Nat → Nat) (frameWidth frameHeight i : Nat)
    (hi : i < frameWidth * frameHeight) :
    (onFrame2d rgb frameWidth frameHeight).data.get? (4 * i) = some (rgb (3 * i)) ∧
    (onFrame2d rgb frameWidth frameHeight).data.get? (4 * i + 1) = some (rgb (3 * i + 1)) ∧
    (onFrame2d rgb frameWidth frameHeight).data.get? (4 * i + 2) = some (rgb (3 * i + 2)) ∧
    (onFrame2d rgb frameWidth frameHeight).data.get? (4 * i + 3) = some 255 ∧
    (onFrame2d rgb frameWidth frameHeight).dx = 0 ∧
    (onFrame2d rgb frameWidth frameHeight).dy = 0 := by
  obtain ⟨e0, e1, e2, e3⟩ := rgbaPixels_get rgb (frameWidth * frameHeight) 0 i hi
  exact ⟨by simpa using e0, by simpa using e1, by simpa using e2, by simpa using e3, rfl, rfl⟩

/-- Witness for claim C3 at a concrete one-pixel frame. -/
theorem c3_witness :
    0 < 1 * 1 ∧
    ((onFrame2d rgbEx 1 1).data.get? (4 * 0) = some (rgbEx (3 * 0)) ∧
     (onFrame2d rgbEx 1 1).data.get? (4 * 0 + 1) = some (rgbEx (3 * 0 + 1)) ∧
     (onFrame2d rgbEx 1 1).data.get? (4 * 0 + 2) = some (rgbEx (3 * 0 + 2)) ∧
     (onFrame2d rgbEx 1 1).data.get? (4 * 0 + 3) = some 255 ∧
     (onFrame2d rgbEx 1 1).dx = 0 ∧
     (onFrame2d rgbEx 1 1).dy = 0) :=
  ⟨by decide, c3_rgb_to_rgba rgbEx 1 1 0 (by decide)⟩

/-- Claim C9: for every ScreenMove control, onDown sends
sendMouseMotion(mX, mY) where mX is 0 when the direction contains "left",
1 when it contains "right" (right wins when both occur) and 0.5 otherwise,
and mY is 0 for "up", 1 for "down" (down wins) and 0.5 otherwise; onUp
always sends sendMouseMotion(0.5, 0.5). -/
theorem c9_screen_move (c : LayerControlC) (gridConfig : GridConfiguration) :
    (createScreenMoveControl c gridConfig).onDown =
      [Action.sendMouseMotion
        (if 0 ≤ jsIndexOf c.direction ("right".data) then 1
         else if 0 ≤ jsIndexOf c.direction ("left".data) then 0 else (1 : ℚ) / 2)
        (if 0 ≤ jsIndexOf c.direction ("down".data) then 1
         else if 0 ≤ jsIndexOf c.direction ("up".data) then 0 else (1 : ℚ) / 2)] ∧
    (createScreenMoveControl c gridConfig).onUp =
      [Action.sendMouseMotion ((1 : ℚ) / 2) ((1 : ℚ) / 2)] :=
  ⟨rfl, rfl⟩

/-- Claim C10: for every PointerButton control, onDown sets
layers.pointerButton to the configured button value, onUp resets it to 0,
and no other field of layers is modified by either handler. -/
theorem c10_pointer_button (c : LayerControlC) (gridConfig : GridConfiguration)
    (s : LayersState) :
    (applyActions s (createPointerButtonControl c gridConfig).onDown).pointerButton = c.button ∧
    (applyActions s (createPointerButtonControl c gridConfig).onDown).keyboardVisible = s.keyboardVisible ∧
    (applyActions s (createPointerButtonControl c gridConfig).onDown).resizeListeners = s.resizeListeners ∧
    (applyActions s (createPointerButtonControl c gridConfig).onDown).width = s.width ∧
    (applyActions s (createPointerButtonControl c gridConfig).onDown).height = s.height ∧
    (applyActions s (createPointerButtonControl c gridConfig).onUp).pointerButton = 0 ∧
    (applyActions s (createPointerButtonControl c gridConfig).onUp).keyboardVisible = s.keyboardVisible ∧
    (applyActions s (createPointerButtonControl c gridConfig).onUp).resizeListeners = s.resizeListeners ∧
    (applyActions s (createPointerButtonControl c gridConfig).onUp).width = s.width ∧
    (applyActions s (createPointerButtonControl c gridConfig).onUp).height = s.height :=
  ⟨rfl, rfl, rfl, rfl, rfl, rfl, rfl, rfl, rfl, rfl⟩

theorem bindControls_skip (gridConfig : GridConfiguration) (bad : LayerControlC)
    (hbad : factoryMapping bad.type = none) :
    ∀ pre post : List LayerControlC,
      bindControls gridConfig (pre ++ bad :: post) =
        ((bindControls gridConfig pre).1 ++ (bindControls gridConfig post).1,
         (bindControls gridConfig pre).2 ++
           Step.logError bad.type :: (bindControls gridConfig post).2) := by
  intro pre
  induction pre with
  | nil => intro post; simp [bindControls, hbad]
  | cons c cs ih =>
    intro post
    cases hfc : factoryMapping c.type with
    | none => simp [bindControls, List.cons_append, hfc, ih post]
    | some f => simp [bindControls, List.cons_append, hfc, ih post]

theorem bindControls_map_fst (gridConfig : GridConfiguration) :
    ∀ controls : List LayerControlC,
      ((bindControls gridConfig controls).1).map Prod.fst =
        controls.filter (fun c => (factoryMapping c.type).isSome) := by
  intro controls
  induction controls with
  | nil => simp [bindControls]
  | cons c cs ih =>
    cases hfc : factoryMapping c.type with
    | none => simp [bindControls, hfc, ih, List.filter_cons]
    | some f => simp [bindControls, hfc, ih, List.filter_cons]

theorem bindControls_no_unbind (gridConfig : GridConfiguration) :
    ∀ (controls : List LayerControlC) (c : LayerControlC),
      Step.invokeUnbind c ∉ (bindControls gridConfig controls).2 := by
  intro controls
  induction controls with
  | nil => intro c; simp [bindControls]
  | cons d ds ih =>
    intro c
    cases hfc : factoryMapping d.type with
    | none => simp only [bindControls, hfc, List.mem_cons]
              exact fun h => h.elim (fun h1 => Step.noConfusion h1) (ih c)
    | some f => simp only [bindControls, hfc, List.mem_cons]
                exact fun h => h.elim (fun h1 => Step.noConfusion h1) (ih c)

/-- Claim C4: control construction dispatches on the type field over exactly
the six keys Key, Options, Keyboard, Switch, ScreenMove, PointerButton; a
control with any other type is skipped (an error is logged, no unbind is
pushed) and every remaining control in the list is still processed. -/
theorem c4_dispatch_table (t : List Char) (gridConfig : GridConfiguration)
    (pre post : List LayerControlC) (bad : LayerControlC)
    (hbad : factoryMapping bad.type = none) :
    ((factoryMapping t).isSome ↔
      (t = "Key".data ∨ t = "Options".data ∨ t = "Keyboard".data ∨
       t = "Switch".data ∨ t = "ScreenMove".data ∨ t = "PointerButton".data)) ∧
    (bindControls gridConfig (pre ++ bad :: post)).1 =
      (bindControls gridConfig pre).1 ++ (bindControls gridConfig post).1 ∧
    (bindControls gridConfig (pre ++ bad :: post)).2 =
      (bindControls gridConfig pre).2 ++
        Step.logError bad.type :: (bindControls gridConfig post).2 := by
  refine ⟨?_, ?_, ?_⟩
  · unfold factoryMapping
    split_ifs with h1 h2 h3 h4 h5 h6 <;> simp_all
  · rw [bindControls_skip gridConfig bad hbad pre post]
  · rw [bindControls_skip gridConfig bad hbad pre post]

/-- Witness for claim C4: the Key type is in the table, the type "Nope" is
not, and a list with a "Nope" control in the middle processes both
neighbouring controls. -/
theorem c4_witness :
    factoryMapping badCtrlEx.type = none ∧
    (((factoryMapping ("Key".data)).isSome ↔
      ("Key".data = "Key".data ∨ "Key".data = "Options".data ∨
       "Key".data = "Keyboard".data ∨ "Key".data = "Switch".data ∨
       "Key".data = "ScreenMove".data ∨ "Key".data = "PointerButton".data)) ∧
     (bindControls gEx ([keyCtrlEx] ++ badCtrlEx :: [ptrCtrlEx])).1 =
       (bindControls gEx [keyCtrlEx]).1 ++ (bindControls gEx [ptrCtrlEx]).1 ∧
     (bindControls gEx ([keyCtrlEx] ++ badCtrlEx :: [ptrCtrlEx])).2 =
       (bindControls gEx [keyCtrlEx]).2 ++
         Step.logError badCtrlEx.type :: (bindControls gEx [ptrCtrlEx]).2) :=
  ⟨rfl, c4_dispatch_table ("Key".data) gEx [keyCtrlEx] [ptrCtrlEx] badCtrlEx rfl⟩

/-- Claim C5 (amended): for every container size and every frame size with
frameWidth > 0 and frameHeight > 0, over the rationals, onResize yields
width ≤ containerWidth, height ≤ containerHeight, an aspect-true size in
cross-multiplied form width * frameHeight = height * frameWidth, and
centering offsets top = (containerHeight - height)/2 and
left = (containerWidth - width)/2. (The division form width/height =
frameWidth/frameHeight fails when the computed height is 0, e.g. at
containerWidth = containerHeight = 0.) -/
theorem c5_letterbox_centered (cw ch fw fh : ℚ) (hfw : 0 < fw) (hfh : 0 < fh) :
    (onResize2d cw ch fw fh).width ≤ cw ∧
    (onResize2d cw ch fw fh).height ≤ ch ∧
    (onResize2d cw ch fw fh).width * fh = (onResize2d cw ch fw fh).height * fw ∧
    (onResize2d cw ch fw fh).top = (ch - (onResize2d cw ch fw fh).height) / 2 ∧
    (onResize2d cw ch fw fh).left = (cw - (onResize2d cw ch fw fh).width) / 2 := by
  have ha : 0 < fw / fh := div_pos hfw hfh
  have hfh0 : fh ≠ 0 := ne_of_gt hfh
  have hfw0 : fw ≠ 0 := ne_of_gt hfw
  refine ⟨?_, ?_, ?_, rfl, rfl⟩
  · simp only [onResize2d]
    split_ifs with hcase
    · exact le_of_lt ((lt_div_iff₀ ha).mp hcase)
    · exact le_refl cw
  · simp only [onResize2d]
    split_ifs with hcase
    · exact le_refl ch
    · exact not_lt.mp hcase
  · simp only [onResize2d]
    split_ifs with hcase
    · show ch * (fw / fh) * fh = ch * fw
      rw [mul_assoc, div_mul_cancel₀ fw hfh0]
    · show cw * fh = cw / (fw / fh) * fw
      rw [div_div_eq_mul_div, div_mul_cancel₀ _ hfw0]

/-- Counterexample for claim C5 as stated: at containerWidth = 0,
containerHeight = 0, frameWidth = 1, frameHeight = 1 the computed width and
height are both 0, so width/height is not the frame aspect 1/1. -/
theorem c5_counterexample :
    ¬ ((onResize2d 0 0 1 1).width ≤ 0 ∧
       (onResize2d 0 0 1 1).height ≤ 0 ∧
       (onResize2d 0 0 1 1).width / (onResize2d 0 0 1 1).height = 1 / 1 ∧
       (onResize2d 0 0 1 1).top = (0 - (onResize2d 0 0 1 1).height) / 2 ∧
       (onResize2d 0 0 1 1).left = (0 - (onResize2d 0 0 1 1).width) / 2) := by
  have h : onResize2d 0 0 1 1 = { width := 0, height := 0, top := 0, left := 0 } := by
    norm_num [onResize2d]
  rw [h]
  norm_num

/-- Witness for claim C5 at a concrete 4x3 container and 2x1 frame. -/
theorem c5_witness :
    (0 : ℚ) < 2 ∧ (0 : ℚ) < 1 ∧
    ((onResize2d 4 3 2 1).width ≤ 4 ∧
     (onResize2d 4 3 2 1).height ≤ 3 ∧
     (onResize2d 4 3 2 1).width * 1 = (onResize2d 4 3 2 1).height * 2 ∧
     (onResize2d 4 3 2 1).top = (3 - (onResize2d 4 3 2 1).height) / 2 ∧
     (onResize2d 4 3 2 1).left = (4 - (onResize2d 4 3 2 1).width) / 2) :=
  ⟨by norm_num, by norm_num,
    c5_letterbox_centered 4 3 2 1 (by norm_num) (by norm_num)⟩

/-- Claim C6: after every resize handled by initLayerConfig's onResize, the
unbindControls list holds exactly one unbind per control successfully
created from the current grid configuration, and every previously
registered unbind is invoked and the list emptied before any new control
is created. -/
theorem c6_resize_rebind (prev : List (LayerControlC × ControlBinding))
    (gridConfig : GridConfiguration) (controls : List LayerControlC) :
    ((onResizeControls prev gridConfig controls).1).map Prod.fst =
      controls.filter (fun c => (factoryMapping c.type).isSome) ∧
    ∃ rest,
      (onResizeControls prev gridConfig controls).2 =
        prev.map (fun p => Step.invokeUnbind p.1) ++ rest ∧
      ∀ c, Step.invokeUnbind c ∉ rest := by
  refine ⟨bindControls_map_fst gridConfig controls,
    (bindControls gridConfig controls).2, rfl, ?_⟩
  intro c
  exact bindControls_no_unbind gridConfig controls c

/-- Witness for claim C6 at a concrete previous layout and control list. -/
theorem c6_witness :
    ((onResizeControls prevEx gEx [keyCtrlEx, badCtrlEx, ptrCtrlEx]).1).map Prod.fst =
      [keyCtrlEx, badCtrlEx, ptrCtrlEx].filter
        (fun c => (factoryMapping c.type).isSome) ∧
    ∃ rest,
      (onResizeControls prevEx gEx [keyCtrlEx, badCtrlEx, ptrCtrlEx]).2 =
        prevEx.map (fun p => Step.invokeUnbind p.1) ++ rest ∧
      ∀ c, Step.invokeUnbind c ∉ rest :=
  c6_resize_rebind prevEx gEx [keyCtrlEx, badCtrlEx, ptrCtrlEx]

/-- Claim C7: both backends subscribe exactly to onFrameSize, onFrame and
onExit on the command interface, and when the exit event fires each removes
its onResizeLayer listener from layers, restoring the resize-listener set
to what it was before initialization. -/
theorem c7_subscribe_and_restore (listeners : List Nat) (hid : Nat)
    (hfresh : hid ∉ listeners) :
    (init2d listeners hid).ciSubscriptions =
      [CISubscription.onFrameSize, CISubscription.onFrame, CISubscription.onExit] ∧
    (initWebGl listeners hid).ciSubscriptions =
      [CISubscription.onFrameSize, CISubscription.onFrame, CISubscription.onExit] ∧
    (init2d listeners hid).listenersAfterExit = listeners ∧
    (initWebGl listeners hid).listenersAfterExit = listeners := by
  have herase : (listeners ++ [hid]).erase hid = listeners := by
    rw [List.erase_append_right _ hfresh]
    simp
  exact ⟨rfl, rfl,
    by simpa [init2d, addOnResize, removeOnResize] using herase,
    by simpa [initWebGl, addOnResize, removeOnResize] using herase⟩

/-- Witness for claim C7 with listener list [1, 2] and fresh handler 3. -/
theorem c7_witness :
    (3 ∉ [1, 2]) ∧
    ((init2d [1, 2] 3).ciSubscriptions =
      [CISubscription.onFrameSize, CISubscription.onFrame, CISubscription.onExit] ∧
     (initWebGl [1, 2] 3).ciSubscriptions =
      [CISubscription.onFrameSize, CISubscription.onFrame, CISubscription.onExit] ∧
     (init2d [1, 2] 3).listenersAfterExit = [1, 2] ∧
     (initWebGl [1, 2] 3).listenersAfterExit = [1, 2]) :=
  ⟨by decide, c7_subscribe_and_restore [1, 2] 3 (by decide)⟩

/-- Claim C8: initLayersControl selects the first layer whose title equals
layerName when layerName is given and a match exists; otherwise it selects
layers[0]; on an empty layer list the selected layer is undefined (none),
so initialization fails. -/
theorem c8_layer_selection (ls : List LayerConf) (nm : List Char) :
    (∀ l, ls.find? (fun x => x.title == nm) = some l →
      selectLayer ls (some nm) = some l) ∧
    (ls.find? (fun x => x.title == nm) = none →
      selectLayer ls (some nm) = ls.get? 0) ∧
    selectLayer ls none = ls.get? 0 ∧
    selectLayer ([] : List LayerConf) (some nm) = none ∧
    selectLayer ([] : List LayerConf) none = none := by
  refine ⟨?_, ?_, rfl, rfl, rfl⟩
  · intro l hl
    simp [selectLayer, hl]
  · intro hn
    simp [selectLayer, hn]

/-- Witness for claim C8: with two distinct layers titled "alt", the
selection picks the first of them. -/
theorem c8_witness :
    layersEx.find? (fun x => x.title == "alt".data) = some altLayerEx ∧
    selectLayer layersEx (some ("alt".data)) = some altLayerEx :=
  ⟨by decide,
    (c8_layer_selection layersEx ("alt".data)).1 altLayerEx (by decide)⟩

end EmulatorsUi
